import Mathlib

/-!
Verification development for the `online-doc` real-time collaboration client
(`frontend/src/services/documentService.ts`, class `CollaborationManager`).

The client state machine, its WebSocket event handlers, the outgoing message
queue, the reconnect/backoff logic and the base64 wire encoding are embedded
shallowly below; byte arrays (`Uint8Array`) are lists of naturals `< 256`,
and JavaScript strings are Lean `String`s.
-/

/- ### Base64 wire encoding (model of the browser builtins `btoa` / `atob`) -/

/-- The standard base64 alphabet used by `btoa`/`atob`. -/
def b64Alphabet : List Char :=
  "ABCDEFGHIJKLMNOPQRSTUVWXYZabcdefghijklmnopqrstuvwxyz0123456789+/".toList

/-- The base64 padding character. -/
def padChar : Char := '='

/-- Character for a 6-bit group. -/
def sextetChar (n : Nat) : Char := b64Alphabet.getD n 'A'

/-- Position of a character in the alphabet (0 if absent). -/
def b64IndexAux : List Char → Char → Nat
  | [], _ => 0
  | a :: rest, c => if a = c then 0 else b64IndexAux rest c + 1

/-- Inverse of `sextetChar` on the alphabet. -/
def b64Index (c : Char) : Nat := b64IndexAux b64Alphabet c

/-- Standard base64 encoding of a byte sequence (the `btoa` builtin applied to
the binary string built byte-by-byte in `arrayBufferToBase64`): groups of three
bytes become four characters; a trailing group of one or two bytes is padded
with `=`. -/
def base64encode : List Nat → List Char
  | [] => []
  | [a] => [sextetChar (a / 4), sextetChar (a % 4 * 16), padChar, padChar]
  | [a, b] => [sextetChar (a / 4), sextetChar (a % 4 * 16 + b / 16),
               sextetChar (b % 16 * 4), padChar]
  | a :: b :: c :: rest =>
    sextetChar (a / 4) :: sextetChar (a % 4 * 16 + b / 16) ::
    sextetChar (b % 16 * 4 + c / 64) :: sextetChar (c % 64) :: base64encode rest

/-- Standard base64 decoding (the `atob` builtin followed by `charCodeAt` in
`base64ToArrayBuffer`): four characters yield three bytes, with `=` padding
cutting the final group to one or two bytes.  Invalid inputs (on which `atob`
throws) never arise from `base64encode` outputs. -/
def base64decode : List Char → List Nat
  | c1 :: c2 :: c3 :: c4 :: rest =>
    if c3 = padChar then
      [b64Index c1 * 4 + b64Index c2 / 16]
    else if c4 = padChar then
      [b64Index c1 * 4 + b64Index c2 / 16,
       b64Index c2 % 16 * 16 + b64Index c3 / 4]
    else
      (b64Index c1 * 4 + b64Index c2 / 16) ::
      (b64Index c2 % 16 * 16 + b64Index c3 / 4) ::
      (b64Index c3 % 4 * 64 + b64Index c4) ::
      base64decode rest
  | _ => []

/-- `CollaborationManager.arrayBufferToBase64`: bytes to a base64 string. -/
def arrayBufferToBase64 (buffer : List Nat) : String :=
  String.mk (base64encode buffer)

/-- `CollaborationManager.base64ToArrayBuffer`: base64 string back to bytes. -/
def base64ToArrayBuffer (base64 : String) : List Nat :=
  base64decode base64.toList

/- ### Merge state (the Yjs CRDT, an external collaborator) -/

/-- Modelled from the spec: the merge primitive (`Y.Doc` / `Y.applyUpdate`,
the Yjs library, not part of this repository) is an opaque, mergeable state
container whose `apply` is commutative and idempotent by contract (§2, §3, §8).
We model the merge state as the set of update fragments applied so far. -/
abbrev MergeState := Finset (List Nat)

/-- Modelled from the spec: applying one opaque update fragment
(`Y.applyUpdate`) — idempotent, commutative set insertion. -/
def applyFrag (d : MergeState) (f : List Nat) : MergeState := insert f d

/-- Applying a list of fragments in order. -/
def applyFrags (d : MergeState) (l : List (List Nat)) : MergeState :=
  l.foldl applyFrag d

/- ### Wire protocol messages -/

/-- `MessageType` enum from the source, with its contractual wire strings. -/
inductive MessageType
  | SYNC_STEP1 | SYNC_STEP2 | SYNC_UPDATE | AWARENESS_UPDATE
  | USER_JOINED | USER_LEFT | ERROR | PING | PONG | SERVER_SHUTDOWN
deriving DecidableEq

/-- The string value of each `MessageType` member (the enum initializers). -/
def MessageType.wire : MessageType → String
  | .SYNC_STEP1 => "sync_step1"
  | .SYNC_STEP2 => "sync_step2"
  | .SYNC_UPDATE => "sync_update"
  | .AWARENESS_UPDATE => "awareness_update"
  | .USER_JOINED => "user_joined"
  | .USER_LEFT => "user_left"
  | .ERROR => "error"
  | .PING => "ping"
  | .PONG => "pong"
  | .SERVER_SHUTDOWN => "server_shutdown"

/-- `UserAwareness` payload (cursor tracking). -/
structure UserAwareness where
  user_id : String
  username : String
  cursor_position : Nat
  cursor_color : String
  selection_start : Option Nat := none
  selection_end : Option Nat := none
deriving DecidableEq

/-- The `user` object carried by `user_joined`. -/
structure UserInfo where
  user_id : String
  username : String
  cursor_color : String
deriving DecidableEq

/-- `WebSocketMessage` envelope.  `type` is kept as a raw string so that
messages with unknown types (version skew) are representable; every other
field is optional, mirroring the TypeScript interface. -/
structure WebSocketMessage where
  type : String
  document_id : Option String := none
  update : Option String := none
  state : Option String := none
  version : Option Nat := none
  user_id : Option String := none
  username : Option String := none
  awareness : Option UserAwareness := none
  user : Option UserInfo := none
  timestamp : Option String := none
  error : Option String := none
  message : Option String := none
  code : Option Nat := none
  reconnect : Option Bool := none
deriving DecidableEq

/- ### Manager state -/

/-- `WebSocket.readyState` values. -/
inductive ReadyState
  | connecting | opened | closing | closed
deriving DecidableEq

/-- The transport handle: only its ready state matters to the client logic. -/
structure WSocket where
  readyState : ReadyState
deriving DecidableEq

/-- State of one `CollaborationManager` instance.  `sentWire` is the
observation trace of messages successfully handed to `websocket.send`
(in order); every other field is a field of the class. -/
structure CMState where
  documentId : String
  token : String
  wsUrl : String
  yDoc : MergeState
  websocket : Option WSocket
  reconnectAttempts : Nat
  maxReconnectAttempts : Nat
  reconnectTimeout : Option Nat
  isConnected : Bool
  messageQueue : List WebSocketMessage
  sentWire : List WebSocketMessage
deriving DecidableEq

/-- JavaScript `a || b` on an optional string (empty string is falsy). -/
def jsOrStr (a : Option String) (b : String) : String :=
  match a with
  | some u => if u = "" then b else u
  | none => b

/-- The fallback chain `wsUrl || process.env.NEXT_PUBLIC_WS_URL ||
'ws://localhost:8000/ws'` in the constructor. -/
def defaultWsUrl : String := "ws://localhost:8000/ws"

/-- Resolve the websocket base URL from the constructor argument and the
environment variable. -/
def resolveWsUrl (wsUrlArg envUrl : Option String) : String :=
  jsOrStr wsUrlArg (jsOrStr envUrl defaultWsUrl)

/-- The `CollaborationManager` constructor: fresh Yjs doc, no socket, zero
reconnect attempts, empty queue. -/
def initManager (docId tok : String) (wsUrlArg envUrl : Option String) : CMState :=
  { documentId := docId
    token := tok
    wsUrl := resolveWsUrl wsUrlArg envUrl
    yDoc := ∅
    websocket := none
    reconnectAttempts := 0
    maxReconnectAttempts := 10
    reconnectTimeout := none
    isConnected := false
    messageQueue := []
    sentWire := [] }

/-- The URL built at the top of `connect()`:
`${this.wsUrl}/documents/${this.documentId}?token=${this.token}`. -/
def buildWsUrl (wsUrl docId tok : String) : String :=
  wsUrl ++ "/documents/" ++ docId ++ "?token=" ++ tok

/-- The connection URL of a manager instance. -/
def connectUrl (s : CMState) : String :=
  buildWsUrl s.wsUrl s.documentId s.token

/- ### Operations (methods and event handlers) -/

/-- Whether `this.websocket` exists and its `readyState` is `OPEN`. -/
def socketOpenB (s : CMState) : Bool :=
  match s.websocket with
  | some w => w.readyState = ReadyState.opened
  | none => false

/-- `sendMessage`: if the socket is absent or not open, push the message onto
`messageQueue`; otherwise hand it to `websocket.send` (recorded on
`sentWire`; the model takes the send to succeed, so the `catch` re-queue
branch is not exercised). -/
def sendMessage (s : CMState) (m : WebSocketMessage) : CMState :=
  if socketOpenB s then { s with sentWire := s.sentWire ++ [m] }
  else { s with messageQueue := s.messageQueue ++ [m] }

/-- One pass of the `while` loop in `flushMessageQueue`, fuelled: each
iteration shifts the head of the queue and re-sends it.  The fuel bounds the
number of iterations; `flushMessageQueue` supplies the queue length, which is
exact whenever the loop terminates (the socket is open, so every shifted
message is actually sent). -/
def flushLoop : Nat → CMState → CMState
  | 0, s => s
  | fuel + 1, s =>
    match s.messageQueue, s.isConnected with
    | m :: rest, true => flushLoop fuel (sendMessage { s with messageQueue := rest } m)
    | _, _ => s

/-- `flushMessageQueue`: drain the queue while connected. -/
def flushMessageQueue (s : CMState) : CMState :=
  flushLoop s.messageQueue.length s

/-- The `sync_update` message built by the `yDoc.on('update')` observer. -/
def syncUpdateMsg (docId : String) (f : List Nat) : WebSocketMessage :=
  { type := MessageType.wire .SYNC_UPDATE
    document_id := some docId
    update := some (arrayBufferToBase64 f) }

/-- The handshake state request sent in `onopen`. -/
def syncStep1Msg (docId : String) : WebSocketMessage :=
  { type := MessageType.wire .SYNC_STEP1, document_id := some docId }

/-- A heartbeat ping as received from the server. -/
def msgPing : WebSocketMessage := { type := MessageType.wire .PING }

/-- The heartbeat reply built in the `PING` case of `handleMessage`. -/
def msgPong : WebSocketMessage := { type := MessageType.wire .PONG }

/-- A graceful-shutdown notification with `reconnect: true`. -/
def msgShutdownReconnect : WebSocketMessage :=
  { type := MessageType.wire .SERVER_SHUTDOWN, reconnect := some true }

/-- A local edit: the Yjs document mutates, then the `update` observer fires
with a non-`'server'` origin, so the fragment is forwarded via `sendMessage`
only when `this.isConnected` holds — otherwise the observer does nothing
further. -/
def localEdit (s : CMState) (f : List Nat) : CMState :=
  let s1 := { s with yDoc := applyFrag s.yDoc f }
  if s1.isConnected then sendMessage s1 (syncUpdateMsg s1.documentId f) else s1

/-- `scheduleReconnect`: no-op when a timer is already pending; otherwise set
a timer with delay `min(1000 * 2 ^ attempts, 30000)` and bump the counter. -/
def backoffDelay (attempts : Nat) : Nat := min (1000 * 2 ^ attempts) 30000

/-- `scheduleReconnect` (see `backoffDelay`). -/
def scheduleReconnect (s : CMState) : CMState :=
  match s.reconnectTimeout with
  | some _ => s
  | none =>
    { s with reconnectTimeout := some (backoffDelay s.reconnectAttempts)
             reconnectAttempts := s.reconnectAttempts + 1 }

/-- The `onopen` handler: mark connected, reset the attempt counter, flush
the queue, then request the initial document state (`sync_step1`). -/
def wsOnOpen (s : CMState) : CMState :=
  let s1 := { s with isConnected := true, reconnectAttempts := 0 }
  let s2 := flushMessageQueue s1
  sendMessage s2 (syncStep1Msg s2.documentId)

/-- The `onclose` handler: mark disconnected; schedule a reconnect only when
the close code is not 1000 and fewer than `maxReconnectAttempts` attempts
have been made. -/
def wsOnClose (s : CMState) (code : Nat) : CMState :=
  let s1 := { s with isConnected := false }
  if code ≠ 1000 ∧ s1.reconnectAttempts < s1.maxReconnectAttempts
  then scheduleReconnect s1 else s1

/-- `handleMessage`: the `switch` on `message.type`.  Branches that only
invoke UI callbacks (`awareness_update`, `user_joined`, `user_left`,
`error`) leave the manager state unchanged; unknown types fall through to
the `default` case, which merely logs.  JavaScript truthiness of the string
fields (`if (message.state)`, `if (message.update)`) makes the empty string
falsy. -/
def handleMessage (s : CMState) (m : WebSocketMessage) : CMState :=
  if m.type = MessageType.wire .SYNC_STEP2 then
    match m.state with
    | some st => if st = "" then s
                 else { s with yDoc := applyFrag s.yDoc (base64ToArrayBuffer st) }
    | none => s
  else if m.type = MessageType.wire .SYNC_UPDATE then
    match m.update with
    | some u => if u = "" then s
                else { s with yDoc := applyFrag s.yDoc (base64ToArrayBuffer u) }
    | none => s
  else if m.type = MessageType.wire .AWARENESS_UPDATE then s
  else if m.type = MessageType.wire .USER_JOINED then s
  else if m.type = MessageType.wire .USER_LEFT then s
  else if m.type = MessageType.wire .PING then sendMessage s msgPong
  else if m.type = MessageType.wire .ERROR then s
  else if m.type = MessageType.wire .SERVER_SHUTDOWN then
    if m.reconnect = some true then scheduleReconnect s else s
  else s

/-- `disconnect()`: clear any pending reconnect timer, close the socket with
code 1000 (normal closure) and null it, mark disconnected. -/
def disconnect (s : CMState) : CMState :=
  let s1 := { s with reconnectTimeout := none }
  let s2 := match s1.websocket with
            | some _ => { s1 with websocket := none }
            | none => s1
  { s2 with isConnected := false }

/-- The wire strings of all known protocol message types. -/
def knownWireTypes : List String :=
  [MessageType.wire .SYNC_STEP1, MessageType.wire .SYNC_STEP2,
   MessageType.wire .SYNC_UPDATE, MessageType.wire .AWARENESS_UPDATE,
   MessageType.wire .USER_JOINED, MessageType.wire .USER_LEFT,
   MessageType.wire .ERROR, MessageType.wire .PING, MessageType.wire .PONG,
   MessageType.wire .SERVER_SHUTDOWN]

/- ### String pattern helpers and the spec's endpoint pattern -/

/-- Whether `hay` starts with `needle`. -/
def strStartsWith : List Char → List Char → Bool
  | _, [] => true
  | [], _ :: _ => false
  | a :: as, b :: bs => a = b && strStartsWith as bs

/-- Whether `needle` occurs contiguously inside `hay`. -/
def strContainsSub : List Char → List Char → Bool
  | [], needle => strStartsWith [] needle
  | h :: t, needle => strStartsWith (h :: t) needle || strContainsSub t needle

/-- Modelled from the spec (§6): a URL of the form
`<scheme>://<host>/sync/documents/{document_id}?token={credential}`, where the
host part contains no slash.  This is the spec's endpoint pattern, stated in
the spec's own words, for comparison with the URL the code builds. -/
def specSyncEndpointPattern (url : List Char) : Prop :=
  ∃ scheme host docId cred : List Char,
    (∀ ch ∈ host, ch ≠ '/') ∧
    url = scheme ++ "://".toList ++ host ++ "/sync/documents/".toList ++
          docId ++ "?token=".toList ++ cred

/- ### Concrete example states -/

/-- A freshly constructed manager for document `d1` with token `t1`. -/
def exFresh : CMState := initManager "d1" "t1" none none

/-- The fresh manager once `connect()` has produced an open socket, just
before the `onopen` handler runs. -/
def exSocketOpen : CMState := { exFresh with websocket := some ⟨ReadyState.opened⟩ }

/-- The fresh manager connected: socket open and `isConnected` true (the
`onopen` handler has run). -/
def exConnected : CMState := { exSocketOpen with isConnected := true }

/-- A manager whose connection has dropped: the `onclose` handler has run,
so `isConnected` is false. -/
def exDisconnected : CMState :=
  { exFresh with websocket := some ⟨ReadyState.closed⟩, isConnected := false }

/-- A connected manager that has already made three reconnect attempts. -/
def exAttempts3 : CMState := { exSocketOpen with reconnectAttempts := 3 }

/-- A manager that has exhausted all ten reconnect attempts. -/
def exAttempts10 : CMState := { exFresh with reconnectAttempts := 10 }

/-- A manager with a reconnect timer already pending. -/
def exPending : CMState := { exFresh with reconnectTimeout := some 1000 }
theorem b64Index_sextetChar : ∀ n < 64, b64Index (sextetChar n) = n := by decide

theorem sextetChar_ne_pad : ∀ n < 64, sextetChar n ≠ padChar := by decide

theorem base64decode_pad2 (c1 c2 : Char) :
    base64decode [c1, c2, padChar, padChar] = [b64Index c1 * 4 + b64Index c2 / 16] := by
  simp [base64decode]

theorem base64decode_pad1 (c1 c2 c3 : Char) (h : c3 ≠ padChar) :
    base64decode [c1, c2, c3, padChar] =
      [b64Index c1 * 4 + b64Index c2 / 16,
       b64Index c2 % 16 * 16 + b64Index c3 / 4] := by
  simp [base64decode, h]

theorem base64decode_group (c1 c2 c3 c4 : Char) (rest : List Char)
    (h3 : c3 ≠ padChar) (h4 : c4 ≠ padChar) :
    base64decode (c1 :: c2 :: c3 :: c4 :: rest) =
      (b64Index c1 * 4 + b64Index c2 / 16) ::
      (b64Index c2 % 16 * 16 + b64Index c3 / 4) ::
      (b64Index c3 % 4 * 64 + b64Index c4) ::
      base64decode rest := by
  simp [base64decode, h3, h4]

theorem base64decode_encode : ∀ (b : List Nat), (∀ x ∈ b, x < 256) →
    base64decode (base64encode b) = b
  | [], _ => rfl
  | [a], hb => by
    have ha : a < 256 := hb a (by simp)
    have h1 : a / 4 < 64 := by omega
    have h2 : a % 4 * 16 < 64 := by omega
    rw [show base64encode [a] =
          [sextetChar (a / 4), sextetChar (a % 4 * 16), padChar, padChar] from rfl,
        base64decode_pad2, b64Index_sextetChar _ h1, b64Index_sextetChar _ h2]
    simp only [List.cons.injEq, and_true]
    omega
  | [a, b], hb => by
    have ha : a < 256 := hb a (by simp)
    have hb2 : b < 256 := hb b (by simp)
    have h1 : a / 4 < 64 := by omega
    have h2 : a % 4 * 16 + b / 16 < 64 := by omega
    have h3 : b % 16 * 4 < 64 := by omega
    rw [show base64encode [a, b] =
          [sextetChar (a / 4), sextetChar (a % 4 * 16 + b / 16),
           sextetChar (b % 16 * 4), padChar] from rfl,
        base64decode_pad1 _ _ _ (sextetChar_ne_pad _ h3),
        b64Index_sextetChar _ h1, b64Index_sextetChar _ h2, b64Index_sextetChar _ h3]
    simp only [List.cons.injEq, and_true]
    exact ⟨by omega, by omega⟩
  | a :: b :: c :: rest, hb => by
    have ha : a < 256 := hb a (by simp)
    have hb2 : b < 256 := hb b (by simp)
    have hc : c < 256 := hb c (by simp)
    have h1 : a / 4 < 64 := by omega
    have h2 : a % 4 * 16 + b / 16 < 64 := by omega
    have h3 : b % 16 * 4 + c / 64 < 64 := by omega
    have h4 : c % 64 < 64 := by omega
    have ih := base64decode_encode rest (fun x hx => hb x (by simp [hx]))
    rw [show base64encode (a :: b :: c :: rest) =
          sextetChar (a / 4) :: sextetChar (a % 4 * 16 + b / 16) ::
          sextetChar (b % 16 * 4 + c / 64) :: sextetChar (c % 64) ::
          base64encode rest from rfl,
        base64decode_group _ _ _ _ _ (sextetChar_ne_pad _ h3) (sextetChar_ne_pad _ h4),
        b64Index_sextetChar _ h1, b64Index_sextetChar _ h2, b64Index_sextetChar _ h3,
        b64Index_sextetChar _ h4, ih]
    simp only [List.cons.injEq, and_true]
    exact ⟨by omega, by omega, by omega⟩

theorem flushLoop_drains (q : List WebSocketMessage) : ∀ (s : CMState),
    s.messageQueue = q → socketOpenB s = true → s.isConnected = true →
    flushLoop q.length s = { s with messageQueue := [], sentWire := s.sentWire ++ q } := by
  induction q with
  | nil =>
    intro s hq _ _
    simp only [List.length_nil, flushLoop, List.append_nil]
    rw [← hq]
  | cons m rest ih =>
    intro s hq hopen hconn
    obtain ⟨docId, tok, wsU, doc, ws, ra, mra, rt, ic, mq, sw⟩ := s
    simp only at hq hopen hconn
    subst hq
    subst hconn
    have hopen2 : socketOpenB ⟨docId, tok, wsU, doc, ws, ra, mra, rt, true, rest, sw⟩ = true := by
      simpa only [socketOpenB] using hopen
    have hstep : sendMessage ⟨docId, tok, wsU, doc, ws, ra, mra, rt, true, rest, sw⟩ m =
        ⟨docId, tok, wsU, doc, ws, ra, mra, rt, true, rest, sw ++ [m]⟩ := by
      simp only [sendMessage, if_pos hopen2]
    have hopen3 : socketOpenB ⟨docId, tok, wsU, doc, ws, ra, mra, rt, true, rest, sw ++ [m]⟩
        = true := by
      simpa only [socketOpenB] using hopen
    have ihx := ih ⟨docId, tok, wsU, doc, ws, ra, mra, rt, true, rest, sw ++ [m]⟩
      rfl hopen3 rfl
    simp only [List.length_cons, flushLoop, hstep, ihx]
    simp [List.append_assoc]

theorem wsOnOpen_spec (s : CMState) (hopen : socketOpenB s = true) :
    wsOnOpen s = { s with isConnected := true, reconnectAttempts := 0,
                          messageQueue := [],
                          sentWire := s.sentWire ++ s.messageQueue ++
                            [syncStep1Msg s.documentId] } := by
  obtain ⟨docId, tok, wsU, doc, ws, ra, mra, rt, ic, mq, sw⟩ := s
  have h1 : socketOpenB ⟨docId, tok, wsU, doc, ws, 0, mra, rt, true, mq, sw⟩ = true := by
    simpa only [socketOpenB] using hopen
  have hf := flushLoop_drains mq ⟨docId, tok, wsU, doc, ws, 0, mra, rt, true, mq, sw⟩ rfl h1 rfl
  have h2 : socketOpenB ⟨docId, tok, wsU, doc, ws, 0, mra, rt, true, [], sw ++ mq⟩ = true := by
    simpa only [socketOpenB] using hopen
  simp only [wsOnOpen, flushMessageQueue, hf, sendMessage, if_pos h2]

theorem strStartsWith_append (p b : List Char) : strStartsWith (p ++ b) p = true := by
  induction p with
  | nil => cases b <;> rfl
  | cons c t ih => simp [strStartsWith, ih]

theorem strContainsSub_of_startsWith (hay p : List Char)
    (h : strStartsWith hay p = true) : strContainsSub hay p = true := by
  cases hay with
  | nil => exact h
  | cons c t => simp [strContainsSub, h]

theorem strContainsSub_mono (a t p : List Char)
    (h : strContainsSub t p = true) : strContainsSub (a ++ t) p = true := by
  induction a with
  | nil => exact h
  | cons c r ih => simp [strContainsSub, ih]

theorem strContainsSub_append_mid (a p b : List Char) :
    strContainsSub (a ++ (p ++ b)) p = true :=
  strContainsSub_mono a (p ++ b) p
    (strContainsSub_of_startsWith (p ++ b) p (strStartsWith_append p b))

/- ### Claim theorems -/

/-- Claim C9 (confirmed): decoding the base64 encoding of any byte array
returns the same byte array, so the client's wire encoding of update
fragments and snapshots is lossless. -/
theorem C9_base64_roundtrip (b : List Nat) (hb : ∀ x ∈ b, x < 256) :
    base64ToArrayBuffer (arrayBufferToBase64 b) = b := by
  simp only [arrayBufferToBase64, base64ToArrayBuffer]
  exact base64decode_encode b hb

/-- Witness for C9 at the concrete byte array `[0, 77, 255, 16, 3]`. -/
theorem C9_witness :
    (∀ x ∈ [0, 77, 255, 16, 3], x < 256) ∧
    base64ToArrayBuffer (arrayBufferToBase64 [0, 77, 255, 16, 3]) = [0, 77, 255, 16, 3] :=
  ⟨by decide, C9_base64_roundtrip [0, 77, 255, 16, 3] (by decide)⟩

theorem applyFrags_eq_union (l : List (List Nat)) : ∀ (s : MergeState),
    applyFrags s l = s ∪ l.toFinset := by
  induction l with
  | nil => intro s; simp [applyFrags]
  | cons f t ih =>
    intro s
    have : applyFrags s (f :: t) = applyFrags (applyFrag s f) t := rfl
    rw [this, ih]
    simp only [applyFrag, List.toFinset_cons]
    rw [Finset.insert_union, Finset.union_insert]

/-- Claim C5 (confirmed, spec-modelled merge primitive): applying any
multiset of fragments in any order with arbitrary duplication yields the
same merge state as applying them once each in delivery order, and `apply`
is idempotent. -/
theorem C5_convergence (s : MergeState) (l1 l2 : List (List Nat))
    (h : l1.toFinset = l2.toFinset) :
    applyFrags s l1 = applyFrags s l2 ∧
    ∀ f, applyFrag (applyFrag s f) f = applyFrag s f := by
  constructor
  · rw [applyFrags_eq_union, applyFrags_eq_union, h]
  · intro f
    simp [applyFrag]

/-- Witness for C5: a duplicated, permuted fragment list versus its
delivery-order dedup, plus idempotence at a concrete fragment. -/
theorem C5_witness :
    ([[1], [2], [1]] : List (List Nat)).toFinset = ([[2], [1]] : List (List Nat)).toFinset ∧
    applyFrags ∅ [[1], [2], [1]] = applyFrags ∅ [[2], [1]] ∧
    applyFrag (applyFrag ∅ [3]) [3] = applyFrag ∅ [3] :=
  ⟨by decide,
   (C5_convergence ∅ [[1], [2], [1]] [[2], [1]] (by decide)).1,
   (C5_convergence ∅ [[1], [2], [1]] [[2], [1]] (by decide)).2 [3]⟩

/-- Claim C8 (confirmed): an incoming message whose type is none of the
known protocol message types leaves the entire manager state — document
state, connection, queue — unchanged. -/
theorem C8_unknown_ignored (s : CMState) (m : WebSocketMessage)
    (h : m.type ∉ knownWireTypes) : handleMessage s m = s := by
  have h1 : ¬(m.type = MessageType.wire .SYNC_STEP2) := fun hc => h (by rw [hc]; decide)
  have h2 : ¬(m.type = MessageType.wire .SYNC_UPDATE) := fun hc => h (by rw [hc]; decide)
  have h3 : ¬(m.type = MessageType.wire .AWARENESS_UPDATE) := fun hc => h (by rw [hc]; decide)
  have h4 : ¬(m.type = MessageType.wire .USER_JOINED) := fun hc => h (by rw [hc]; decide)
  have h5 : ¬(m.type = MessageType.wire .USER_LEFT) := fun hc => h (by rw [hc]; decide)
  have h6 : ¬(m.type = MessageType.wire .PING) := fun hc => h (by rw [hc]; decide)
  have h7 : ¬(m.type = MessageType.wire .ERROR) := fun hc => h (by rw [hc]; decide)
  have h8 : ¬(m.type = MessageType.wire .SERVER_SHUTDOWN) := fun hc => h (by rw [hc]; decide)
  simp [handleMessage, h1, h2, h3, h4, h5, h6, h7, h8]

/-- Witness for C8 at a concrete unknown message type. -/
theorem C8_witness :
    (({ type := "bogus_type" } : WebSocketMessage).type ∉ knownWireTypes) ∧
    handleMessage exFresh { type := "bogus_type" } = exFresh :=
  ⟨by decide, C8_unknown_ignored exFresh { type := "bogus_type" } (by decide)⟩

/-- Claim C10 (confirmed): at most one reconnect is ever pending —
`scheduleReconnect` is a no-op when a timer exists (so the attempt counter
also stays put), it sets exactly one timer and bumps the counter otherwise,
and `disconnect()` cancels any pending timer; after a client-initiated
normal closure (code 1000) no reconnect is scheduled. -/
theorem C10_single_pending (s t : CMState) (d : Nat)
    (hpend : s.reconnectTimeout = some d) (hnone : t.reconnectTimeout = none) :
    scheduleReconnect s = s ∧
    (scheduleReconnect t).reconnectTimeout = some (backoffDelay t.reconnectAttempts) ∧
    (scheduleReconnect t).reconnectAttempts = t.reconnectAttempts + 1 ∧
    (disconnect s).reconnectTimeout = none ∧
    (wsOnClose (disconnect s) 1000).reconnectTimeout = none := by
  refine ⟨?_, ?_, ?_, ?_, ?_⟩
  · simp [scheduleReconnect, hpend]
  · simp [scheduleReconnect, hnone]
  · simp [scheduleReconnect, hnone]
  · cases hw : s.websocket <;> simp [disconnect, hw]
  · cases hw : s.websocket <;> simp [disconnect, wsOnClose, hw]

/-- Witness for C10 at a pending and a fresh manager state. -/
theorem C10_witness :
    scheduleReconnect exPending = exPending ∧
    (disconnect exPending).reconnectTimeout = none :=
  ⟨(C10_single_pending exPending exFresh 1000 rfl rfl).1,
   (C10_single_pending exPending exFresh 1000 rfl rfl).2.2.2.1⟩

/-- Claim C7 (corrected): the wire heartbeat names are `ping` / `pong`
(not `heartbeat_ping` / `heartbeat_pong`), and each received ping is
answered by exactly one `sendMessage` of a pong. -/
theorem C7_heartbeat (s : CMState) (hopen : socketOpenB s = true) :
    MessageType.wire .PING = "ping" ∧ MessageType.wire .PONG = "pong" ∧
    handleMessage s msgPing = sendMessage s msgPong ∧
    (handleMessage s msgPing).sentWire = s.sentWire ++ [msgPong] := by
  have h3 : handleMessage s msgPing = sendMessage s msgPong := by
    simp [handleMessage, msgPing, MessageType.wire]
  refine ⟨rfl, rfl, h3, ?_⟩
  rw [h3]
  simp [sendMessage, hopen]

/-- Counterexample for C7 as stated: the contractual wire strings of the
heartbeat message types are not `heartbeat_ping` / `heartbeat_pong`. -/
theorem C7_counterexample :
    MessageType.wire MessageType.PING ≠ "heartbeat_ping" ∧
    MessageType.wire MessageType.PONG ≠ "heartbeat_pong" := by decide

/-- Witness for C7 at a connected manager. -/
theorem C7_witness :
    (handleMessage exSocketOpen msgPing).sentWire = exSocketOpen.sentWire ++ [msgPong] :=
  (C7_heartbeat exSocketOpen (by decide)).2.2.2

/-- Claim C3 (corrected): a `server_shutdown` notification with
`reconnect: true` goes through the ordinary `scheduleReconnect` path, so the
reconnect is scheduled with the full exponential-backoff delay
`backoffDelay attempts`, not immediately. -/
theorem C3_shutdown_backoff (s : CMState) (hnone : s.reconnectTimeout = none) :
    handleMessage s msgShutdownReconnect = scheduleReconnect s ∧
    (handleMessage s msgShutdownReconnect).reconnectTimeout =
      some (backoffDelay s.reconnectAttempts) := by
  have h1 : handleMessage s msgShutdownReconnect = scheduleReconnect s := by
    simp [handleMessage, msgShutdownReconnect, MessageType.wire]
  refine ⟨h1, ?_⟩
  rw [h1]
  simp [scheduleReconnect, hnone]

/-- Counterexample for C3 as stated: after three prior attempts, the
shutdown notification schedules the reconnect with the full backoff delay
of 8000 ms — not an immediate (zero-delay) attempt. -/
theorem C3_counterexample :
    (handleMessage exAttempts3 msgShutdownReconnect).reconnectTimeout =
      some (backoffDelay 3) ∧
    backoffDelay 3 = 8000 ∧
    (handleMessage exAttempts3 msgShutdownReconnect).reconnectTimeout ≠ some 0 := by decide

/-- Witness for C3 at a fresh manager. -/
theorem C3_witness :
    (handleMessage exFresh msgShutdownReconnect).reconnectTimeout =
      some (backoffDelay 0) :=
  (C3_shutdown_backoff exFresh rfl).2

/-- Claim C4 (corrected): on a closure with code ≠ 1000 the client always
enters the disconnected state; a reconnect is scheduled provided fewer than
`maxReconnectAttempts` attempts have been made (and none is pending), with
delay `min(1000·2^n, 30000)` before the `n`-th attempt: 1000, 2000, 4000,
8000, 16000, then capped at 30000. -/
theorem C4_backoff_reconnect (s : CMState) (code : Nat)
    (hcode : code ≠ 1000) (hatt : s.reconnectAttempts < s.maxReconnectAttempts)
    (hnone : s.reconnectTimeout = none) :
    (wsOnClose s code).isConnected = false ∧
    (wsOnClose s code).reconnectTimeout = some (backoffDelay s.reconnectAttempts) ∧
    (wsOnClose s code).reconnectAttempts = s.reconnectAttempts + 1 ∧
    (∀ n ≤ 4, backoffDelay n = 1000 * 2 ^ n) ∧
    (∀ n, 5 ≤ n → backoffDelay n = 30000) := by
  have hstep : wsOnClose s code = scheduleReconnect { s with isConnected := false } := by
    simp [wsOnClose, hcode, hatt]
  refine ⟨?_, ?_, ?_, by decide, ?_⟩
  · rw [hstep]
    simp [scheduleReconnect, hnone]
  · rw [hstep]
    simp [scheduleReconnect, hnone]
  · rw [hstep]
    simp [scheduleReconnect, hnone]
  · intro n hn
    have h32 : 2 ^ 5 ≤ 2 ^ n := Nat.pow_le_pow_right (by norm_num) hn
    have hle : 30000 ≤ 1000 * 2 ^ n := by
      calc (30000 : Nat) ≤ 1000 * 2 ^ 5 := by norm_num
        _ ≤ 1000 * 2 ^ n := Nat.mul_le_mul_left _ h32
    simp [backoffDelay, Nat.min_eq_right hle]

/-- Counterexample for C4 as stated: with the ten reconnect attempts
exhausted, an abnormal closure (code 1006) makes the client disconnected
but schedules no reconnect at all. -/
theorem C4_counterexample :
    (wsOnClose exAttempts10 1006).isConnected = false ∧
    (wsOnClose exAttempts10 1006).reconnectTimeout = none ∧
    (wsOnClose exAttempts10 1006).reconnectAttempts = 10 := by decide

/-- Witness for C4 at a fresh manager closing with code 1006. -/
theorem C4_witness :
    (wsOnClose exFresh 1006).isConnected = false ∧
    (wsOnClose exFresh 1006).reconnectTimeout = some (backoffDelay 0) :=
  ⟨(C4_backoff_reconnect exFresh 1006 (by decide) (by decide) rfl).1,
   (C4_backoff_reconnect exFresh 1006 (by decide) (by decide) rfl).2.1⟩

/-- Claim C6 (corrected): the connection URL is
`<wsBase>/documents/{document_id}?token={credential}` with the default base
`ws://localhost:8000/ws` — the document id in the path and the credential as
the `token` query parameter, but under the `/ws` path prefix, not `/sync`. -/
theorem C6_url_shape (docId tok : String) :
    connectUrl (initManager docId tok none none) =
      "ws://localhost:8000/ws/documents/" ++ docId ++ "?token=" ++ tok ∧
    resolveWsUrl none none = defaultWsUrl := ⟨rfl, rfl⟩

/-- Counterexample for C6 as stated: the URL the client builds for document
`d1` with token `t1` does not match the spec's
`<scheme>://<host>/sync/documents/{id}?token={cred}` pattern — it does not
even contain the segment `/sync/documents/`. -/
theorem C6_counterexample :
    ¬ specSyncEndpointPattern (connectUrl exFresh).toList := by
  rintro ⟨scheme, host, docId, cred, -, heq⟩
  have h1 : strContainsSub (connectUrl exFresh).toList ("/sync/documents/".toList) = true := by
    rw [heq]
    have h := strContainsSub_append_mid (scheme ++ "://".toList ++ host)
      ("/sync/documents/".toList) (docId ++ "?token=".toList ++ cred)
    simpa [List.append_assoc] using h
  have h2 : strContainsSub (connectUrl exFresh).toList ("/sync/documents/".toList) = false := by
    decide
  rw [h1] at h2
  exact Bool.noConfusion h2

/-- Claim C2 (corrected): local-edit forwarding is gated only on
`isConnected` (set already in the `onopen` handler) and an open socket, not
on completion of the handshake: a local edit in that situation is sent
immediately. -/
theorem C2_forwarding_on_open (s : CMState) (f : List Nat)
    (hconn : s.isConnected = true) (hopen : socketOpenB s = true) :
    (localEdit s f).sentWire = s.sentWire ++ [syncUpdateMsg s.documentId f] ∧
    (localEdit s f).messageQueue = s.messageQueue := by
  obtain ⟨docId, tok, wsU, doc, ws, ra, mra, rt, ic, mq, sw⟩ := s
  simp only at hconn hopen ⊢
  subst hconn
  have hopen2 : socketOpenB ⟨docId, tok, wsU, applyFrag doc f, ws, ra, mra, rt, true, mq, sw⟩
      = true := by
    simpa only [socketOpenB] using hopen
  constructor <;> simp [localEdit, sendMessage, hopen2]

/-- Counterexample for C2 as stated: starting from a fresh manager whose
socket just opened, the trace `onopen; local edit` — in which no
`sync_step2` state response has ever been received, so the handshake is not
complete — already puts a `sync_update` on the wire, right after the
`sync_step1` request. -/
theorem C2_counterexample :
    (localEdit (wsOnOpen exSocketOpen) [7]).sentWire =
      [syncStep1Msg "d1", syncUpdateMsg "d1" [7]] := by decide

/-- Witness for C2 at a connected manager. -/
theorem C2_witness :
    (localEdit exConnected [7]).sentWire =
      exConnected.sentWire ++ [syncUpdateMsg exConnected.documentId [7]] :=
  (C2_forwarding_on_open exConnected [7] rfl rfl).1

/-- Claim C1 (code bug): an update fragment produced by a local edit while
the client is disconnected (`isConnected = false`, after `onclose`) is
dropped from the outgoing path — the `update` observer neither sends nor
queues it, so nothing is flushed for it on reconnect; only the local merge
state retains the edit.  This contradicts the claim (and the repository's
own `websocket-protocol.md` contract, which requires offline updates to be
queued and sent on reconnect). -/
theorem C1_offline_edit_dropped :
    (localEdit exDisconnected [9]).messageQueue = [] ∧
    (localEdit exDisconnected [9]).sentWire = [] ∧
    (localEdit exDisconnected [9]).yDoc = applyFrag exDisconnected.yDoc [9] := by decide
